import Mathlib

/-!
Verification of `pickaxe_generic` (doranet): shallow embedding of
`pickaxe_generic/datatypes.py` and `pickaxe_generic/metacalc.py`.

Molecule/operator structural objects come from the external chemistry
engine (rdkit); they are modelled as abstract type parameters, and the
engine's operations as record fields.  Identifiers are modelled over an
arbitrary linear order (instantiated at `Nat` in concrete witnesses).
The external `pickle` module is modelled as a typed round-trip on the
exact value shapes this code serializes, with `frozenset` contents
serialized in sorted order.
-/

namespace PickaxeGeneric

/-! ## Trust-boundary deserializer (`datatypes.py`, lines 21-37) -/

/-- `_safe_builtins_classes`: the closed allow-list of constructor names. -/
def safe_builtins_classes : List String := ["frozenset", "tuple"]

/-- The error raised by `__SafeUnpickler.find_class` on a forbidden global
(`pickle.UnpicklingError(f"global '{module}.{name}' is forbidden")`). -/
inductive UnpicklingError where
  | forbiddenGlobal (module' : String) (name : String)
deriving DecidableEq, Repr

/-- `__SafeUnpickler.find_class`: returns `getattr(builtins, name)` (modelled
by the resolved name) when `module == "builtins"` and the name is in the
allow-list, otherwise raises `UnpicklingError`. -/
def find_class (module' : String) (name : String) : Except UnpicklingError String :=
  if module' = "builtins" ∧ name ∈ safe_builtins_classes then
    Except.ok name
  else
    Except.error (UnpicklingError.forbiddenGlobal module' name)

/-- A pickle payload as the restricted unpickler sees it: the (module,
name) class globals the stream references, together with the typed value it
encodes.  Reconstructing any non-primitive object forces the pickle
machinery itself to resolve that object's class through `find_class`. -/
structure Pickled (α : Type) where
  globals : List (String × String)
  value : α

/-- `loads(string_in)` (datatypes.py, lines 36-37): runs the restricted
unpickler `__SafeUnpickler` over the payload; every class global in the
stream is resolved through `find_class`, and the first forbidden reference
aborts the decode with `UnpicklingError`.  Only when every global is on
the allow-list is the decoded value returned. -/
def loads {α : Type} (p : Pickled α) : Except UnpicklingError α :=
  match p.globals.findSome? (fun g =>
    match find_class g.1 g.2 with
    | Except.ok _ => none
    | Except.error err => some err) with
  | some err => Except.error err
  | none => Except.ok p.value

/-! ## Metadata calculator (`metacalc.py`, `GenerationCalculator`) -/

/-- Metadata mapping attached to a molecule: keys are hashable tags
(modelled as `String`), values here are generation numbers (`int`). -/
abbrev MetaMap := List (String × Int)

/-- Lookup of `key` in an optional metadata mapping; `none` both when the
mapping is absent (`meta is None`) and when the key is missing. -/
def metaLookup (meta : Option MetaMap) (key : String) : Option Int :=
  match meta with
  | none => none
  | some m => m.lookup key

/-- Modelled from the spec: `interfaces.DataPacketE` (interfaces.py is not in
src/), "a transient pairing of a data unit with its current metadata
snapshot".  The data unit is represented by its identifier. -/
structure DataPacket where
  uid : Nat
  meta : Option MetaMap
deriving DecidableEq, Repr

/-- Modelled from the spec: `interfaces.ReactionExplicit` (interfaces.py is
not in src/), a reaction delivered to a calculator with reactant and product
packets. -/
structure ReactionExplicit where
  operator : Nat
  reactants : List DataPacket
  products : List DataPacket
deriving DecidableEq, Repr

/-- The reactant loop of `GenerationCalculator.__call__` (lines 41-47):
walks the reactants accumulating `cur_gen`; result `none` models the early
`return None` when a reactant's metadata is absent or lacks the key, and
`some cur` models falling out of the loop with final accumulator `cur`. -/
def genLoop (gen_key : String) (reactants : List DataPacket) (cur : Option Int) :
    Option (Option Int) :=
  match reactants with
  | [] => some cur
  | r :: rs =>
    match metaLookup r.meta gen_key with
    | none => none
    | some v =>
      let cur2 : Int :=
        match cur with
        | none => v + 1
        | some c => c
      genLoop gen_key rs (some (max cur2 (v + 1)))

/-- `GenerationCalculator.__call__(data, rxn, prev_value)` (lines 33-58),
with `gen_key` the calculator's key field. -/
def GenerationCalculator.call (gen_key : String) (data : DataPacket)
    (rxn : ReactionExplicit) (prev_value : Option Int) : Option Int :=
  if data ∈ rxn.reactants then none
  else
    match genLoop gen_key rxn.reactants none with
    | none => none
    | some none => none
    | some (some cur_gen) =>
      if (match prev_value with
          | some p => decide (p < cur_gen)
          | none => false) then none
      else if (match metaLookup data.meta gen_key with
               | some d => decide (d ≤ cur_gen)
               | none => false) then none
      else some cur_gen

/-- `GenerationCalculator.resolver` is `min`. -/
def GenerationCalculator.resolver : Int → Int → Int := min

/-- The candidate generation as the spec words it:
`1 + max(reactant generations)` (meaningful when every reactant carries the
key and the list is nonempty). -/
def candidateGen (gen_key : String) (reactants : List DataPacket) : Int :=
  match reactants.map (fun r => (metaLookup r.meta gen_key).getD 0) with
  | [] => 0
  | v :: vs => 1 + vs.foldl max v

/-! ## Molecule data units (`datatypes.py`, `MolDatBasicV1`/`MolDatBasicV2`)

The chemistry engine (rdkit) is external; its structural-object type is the
parameter `μ` and its operations are record fields.  `processinput` models
the shared `MolDatRDKit._processinput` (interfaces.py is not in src/;
modelled from the spec: both caching profiles inherit the same input
processing). -/

structure MolEngine (μ : Type) where
  molToSmiles : μ → String
  toBinary : μ → List Nat
  processinput : μ → Bool → Bool → μ

/-- `MolDatBasicV1`: caches only `blob` and `smiles`. -/
structure MolDatBasicV1 where
  blob : List Nat
  smiles : String
deriving DecidableEq, Repr

/-- `MolDatBasicV1.__init__` followed by `_buildfrommol`:
`blob = mol.ToBinary()`, `smiles = MolToSmiles(mol)`. -/
def MolDatBasicV1.init {μ : Type} (e : MolEngine μ) (molecule : μ)
    (sanitize : Bool) (neutralize : Bool) : MolDatBasicV1 :=
  let rdkitmol := e.processinput molecule sanitize neutralize
  ⟨e.toBinary rdkitmol, e.molToSmiles rdkitmol⟩

/-- `MolDatBasicV1.uid` returns the cached SMILES string. -/
def MolDatBasicV1.uid (v : MolDatBasicV1) : String := v.smiles

/-- `MolDatBasicV2`: caches the structural object; `blob` is lazily
memoized (modelled by its computed value). -/
structure MolDatBasicV2 (μ : Type) where
  rdkitmol : μ
  smiles : String

/-- `MolDatBasicV2.__init__` followed by `_buildfrommol`. -/
def MolDatBasicV2.init {μ : Type} (e : MolEngine μ) (molecule : μ)
    (sanitize : Bool) (neutralize : Bool) : MolDatBasicV2 μ :=
  let rdkitmol := e.processinput molecule sanitize neutralize
  ⟨rdkitmol, e.molToSmiles rdkitmol⟩

/-- `MolDatBasicV2.blob`: `self._rdkitmol.ToBinary()` on first access. -/
def MolDatBasicV2.blob {μ : Type} (e : MolEngine μ) (v : MolDatBasicV2 μ) :
    List Nat :=
  e.toBinary v.rdkitmol

/-- `MolDatBasicV2.uid` returns the cached SMILES string. -/
def MolDatBasicV2.uid {μ : Type} (v : MolDatBasicV2 μ) : String := v.smiles

/-! ## Operator data units (`datatypes.py`, `OpDatBasic`) -/

/-- The structural exceptions of the chemistry engine that the operator
boundary deals with (`rdkit.Chem.rdchem.AtomValenceException` and
`rdkit.Chem.rdchem.KekulizeException`). -/
inductive EngineError where
  | atomValence
  | kekulizeError
deriving DecidableEq, Repr

/-- External chemistry-engine operations used by `OpDatBasic`: `ρ` is the
`ChemicalReaction` template type, `μ` the structural-object type.
`kekulizeMol` models `rdkit.Chem.rdmolops.Kekulize` on a copy of the
molecule (it may raise a `KekulizeException`); `runReactants` models
`ChemicalReaction.RunReactants` with `maxProducts=0` (it may raise either
structural exception). -/
structure OpEngine (ρ μ : Type) where
  reactionFromSmarts : String → ρ
  reactionToSmarts : ρ → String
  kekulizeMol : μ → Except EngineError μ
  runReactants : ρ → List μ → Except EngineError (List (List μ))

/-- `OpDatBasic` state: the template object and the kekulize flag
(`_rdkitrxn`, `_kekulize`); `_blob`, `_smarts`, `_uid`, `_templates` are
lazy memoizations of pure functions of these and are modelled by their
computed values. -/
structure OpDatBasic (ρ : Type) where
  rdkitrxn : ρ
  kekulize : Bool
deriving DecidableEq, Repr

/-- The three accepted input forms of `OpDatBasic.__init__`: a
`ChemicalReaction`, a SMARTS string, or a previously produced blob (a
pickle payload carrying its class globals). -/
inductive OpInput (ρ : Type) where
  | rxn : ρ → OpInput ρ
  | smarts : String → OpInput ρ
  | blob : Pickled (ρ × Bool) → OpInput ρ

/-- `OpDatBasic.__init__(operator, engine, kekulize_before_operation)`.
The bytes branch (line 224) is
`self._rdkitrxn, self._kekulize = loads(operator)`: it decodes through the
restricted unpickler, so a forbidden class global in the payload raises
`UnpicklingError` and no unit is constructed. -/
def OpDatBasic.init {ρ μ : Type} (e : OpEngine ρ μ) (operator : OpInput ρ)
    (kekulize_before_operation : Bool) :
    Except UnpicklingError (OpDatBasic ρ) :=
  match operator with
  | OpInput.rxn r => Except.ok ⟨r, kekulize_before_operation⟩
  | OpInput.smarts s =>
      Except.ok ⟨e.reactionFromSmarts s, kekulize_before_operation⟩
  | OpInput.blob b =>
      match loads b with
      | Except.ok d => Except.ok ⟨d.1, d.2⟩
      | Except.error err => Except.error err

/-- The class global that pickling embeds for the
`rdkit.Chem.rdChemReactions.ChemicalReaction` instance inside every
operator blob. -/
def chemicalReactionGlobal : String × String :=
  ("rdkit.Chem.rdChemReactions", "ChemicalReaction")

/-- `OpDatBasic.blob`: `pickle.dumps((self.rdkitrxn, self._kekulize))`.
The stream serializes an rdkit `ChemicalReaction` instance, so it carries
that class's global reference. -/
def OpDatBasic.blob {ρ : Type} (op : OpDatBasic ρ) : Pickled (ρ × Bool) :=
  ⟨[chemicalReactionGlobal], (op.rdkitrxn, op.kekulize)⟩

/-- `OpDatBasic.uid`: `ReactionToSmarts(self._rdkitrxn)` (identical to
`smarts`; the kekulize flag is not consulted). -/
def OpDatBasic.uid {ρ μ : Type} (e : OpEngine ρ μ) (op : OpDatBasic ρ) :
    String :=
  e.reactionToSmarts op.rdkitrxn

/-- Exceptions escaping `OpDatBasic.__call__`: either the domain-level
`ValueError(f"Error occurred when using operator {self} on {reactants}")`
carrying the operator and the reactant tuple, or a raw engine exception
that was not caught. -/
inductive OpCallError (ρ μ : Type) where
  | valueError : OpDatBasic ρ → List μ → OpCallError ρ μ
  | engine : EngineError → OpCallError ρ μ
deriving DecidableEq, Repr

/-- `OpDatBasic.__call__(reactants)` (lines 286-312): optionally kekulizes
copies of the reactant structures (outside the `try` block), then runs the
transformation inside a `try` whose two `except` clauses re-raise
`AtomValenceException` and `KekulizeException` as `ValueError`.  Product
wrapping via the injected `engine.Mol` factory does not affect identity of
the structures and is left to the caller. -/
def OpDatBasic.call {ρ μ : Type} (e : OpEngine ρ μ) (op : OpDatBasic ρ)
    (reactants : List μ) : Except (OpCallError ρ μ) (List (List μ)) :=
  match (if op.kekulize then reactants.mapM e.kekulizeMol
         else Except.ok reactants) with
  | Except.error err => Except.error (OpCallError.engine err)
  | Except.ok rdkitmols =>
    match e.runReactants op.rdkitrxn rdkitmols with
    | Except.ok products => Except.ok products
    | Except.error EngineError.atomValence =>
        Except.error (OpCallError.valueError op reactants)
    | Except.error EngineError.kekulizeError =>
        Except.error (OpCallError.valueError op reactants)

/-! ## Reaction data units (`datatypes.py`, `RxnDatBasic`)

Identifiers are an arbitrary linear order `ι`.  The blob
`pickle.dumps((self._operator, self._products, self._reactants))` is
modelled as a typed triple with the frozensets serialized as lists (in
sorted order, since frozenset iteration order is an implementation detail
of the external serializer but deterministic). -/

/-- `RxnDatBasic` state: `_operator`, `_products`, `_reactants` (the latter
two held as frozensets); `_blob` and `_uid` are lazy memoizations of pure
functions of these. -/
structure RxnDatBasic (ι : Type) where
  operator : ι
  products : Finset ι
  reactants : Finset ι
deriving DecidableEq

/-- The explicit-triple branch of `RxnDatBasic.__init__`:
`_reactants = frozenset(reactants)`, `_products = frozenset(products)`. -/
def RxnDatBasic.fromTriple {ι : Type} [DecidableEq ι] (operator : ι)
    (reactants : List ι) (products : List ι) : RxnDatBasic ι :=
  ⟨operator, products.toFinset, reactants.toFinset⟩

/-- `RxnDatBasic.blob`: the serialized `(operator, products, reactants)`
triple. -/
def RxnDatBasic.blob {ι : Type} [LinearOrder ι] (r : RxnDatBasic ι) :
    ι × List ι × List ι :=
  (r.operator, r.products.sort (fun a b => a ≤ b),
    r.reactants.sort (fun a b => a ≤ b))

/-- The blob branch of `RxnDatBasic.__init__`: `data = loads(reaction)`;
`_operator = data[0]`, `_products = frozenset(data[1])`,
`_reactants = frozenset(data[2])`.  A reaction blob pickles only
identifiers inside `builtins.tuple`/`builtins.frozenset`, and both of
those globals are on the restricted unpickler's allow-list, so `loads`
always succeeds here and is modelled by the typed round trip (unlike the
operator blob path, whose `ChemicalReaction` global is forbidden). -/
def RxnDatBasic.fromBlob {ι : Type} [DecidableEq ι]
    (reaction : ι × List ι × List ι) : RxnDatBasic ι :=
  ⟨reaction.1, reaction.2.1.toFinset, reaction.2.2.toFinset⟩

/-- `RxnDatBasic.__init__` in full: the blob form takes precedence, then
the explicit triple, otherwise `TypeError("Insufficient arguments
provided")`. -/
def RxnDatBasic.init {ι : Type} [DecidableEq ι] (operator : Option ι)
    (reactants : Option (List ι)) (products : Option (List ι))
    (reaction : Option (ι × List ι × List ι)) :
    Except String (RxnDatBasic ι) :=
  match reaction with
  | some b => Except.ok (RxnDatBasic.fromBlob b)
  | none =>
    match operator, reactants, products with
    | some op, some rs, some ps =>
        Except.ok ⟨op, ps.toFinset, rs.toFinset⟩
    | _, _, _ => Except.error "Insufficient arguments provided"

/-- `RxnDatBasic.uid`:
`(self._operator, tuple(sorted(self._products)), tuple(sorted(self._reactants)))`. -/
def RxnDatBasic.uid {ι : Type} [LinearOrder ι] (r : RxnDatBasic ι) :
    ι × List ι × List ι :=
  (r.operator, r.products.sort (fun a b => a ≤ b),
    r.reactants.sort (fun a b => a ≤ b))

/-! ## Theorems -/

/-- C1: `find_class` resolves a constructor iff the module is `builtins` and
the name is in the fixed allow-list {frozenset, tuple}; every other
reference raises `UnpicklingError` and returns no value. -/
theorem find_class_allowlist (module' : String) (name : String) :
    ((∃ v, find_class module' name = Except.ok v) ↔
      (module' = "builtins" ∧ (name = "frozenset" ∨ name = "tuple"))) ∧
    (¬ (module' = "builtins" ∧ (name = "frozenset" ∨ name = "tuple")) →
      find_class module' name =
        Except.error (UnpicklingError.forbiddenGlobal module' name)) := by
  constructor
  · constructor
    · rintro ⟨v, hv⟩
      by_cases h : module' = "builtins" ∧ name ∈ safe_builtins_classes
      · refine ⟨h.1, ?_⟩
        have := h.2
        simp [safe_builtins_classes] at this
        tauto
      · simp [find_class, h] at hv
    · rintro ⟨hm, hn⟩
      refine ⟨name, ?_⟩
      have h : module' = "builtins" ∧ name ∈ safe_builtins_classes := by
        refine ⟨hm, ?_⟩
        simp [safe_builtins_classes]
        tauto
      simp [find_class, h]
  · intro h
    have h' : ¬ (module' = "builtins" ∧ name ∈ safe_builtins_classes) := by
      intro hc
      apply h
      refine ⟨hc.1, ?_⟩
      have := hc.2
      simp [safe_builtins_classes] at this
      tauto
    simp [find_class, h']

/-- Witness for C1 at a concrete forbidden reference: a non-builtins
constructor is rejected with the forbidden-type error. -/
theorem find_class_allowlist_witness :
    find_class "collections" "OrderedDict" =
      Except.error
        (UnpicklingError.forbiddenGlobal "collections" "OrderedDict") :=
  (find_class_allowlist "collections" "OrderedDict").2 (by decide)

/-- If some reactant's metadata is absent or lacks the key, the loop takes
the early `return None` branch. -/
theorem genLoop_missing (gen_key : String) (rs : List DataPacket) (cur : Option Int)
    (h : ∃ r ∈ rs, metaLookup r.meta gen_key = none) :
    genLoop gen_key rs cur = none := by
  induction rs generalizing cur with
  | nil => simp at h
  | cons r rs ih =>
    obtain ⟨r', hr', hm⟩ := h
    rcases List.mem_cons.mp hr' with h1 | h2
    · subst h1
      simp [genLoop, hm]
    · cases hmr : metaLookup r.meta gen_key with
      | none => simp [genLoop, hmr]
      | some v =>
        simp only [genLoop, hmr]
        exact ih _ ⟨r', h2, hm⟩

/-- When every reactant carries the key, the loop folds
`acc ↦ max acc (generation + 1)` over the reactants. -/
theorem genLoop_all_some (gen_key : String) (rs : List DataPacket) (a : Int)
    (h : ∀ r ∈ rs, (metaLookup r.meta gen_key).isSome) :
    genLoop gen_key rs (some a) =
      some (some (List.foldl (fun acc v => max acc (v + 1)) a
        (rs.map (fun r => (metaLookup r.meta gen_key).getD 0)))) := by
  induction rs generalizing a with
  | nil => rfl
  | cons r rs ih =>
    have hr := h r (List.mem_cons_self r rs)
    cases hm : metaLookup r.meta gen_key with
    | none => rw [hm] at hr; simp at hr
    | some v =>
      simp only [genLoop, hm, List.map_cons, List.foldl_cons, Option.getD_some]
      exact ih (max a (v + 1)) (fun r' hr' => h r' (List.mem_cons_of_mem r hr'))

theorem foldl_max_add_one (v0 : Int) (vs : List Int) :
    List.foldl (fun a v => max a (v + 1)) (v0 + 1) vs =
      List.foldl max v0 vs + 1 := by
  induction vs generalizing v0 with
  | nil => rfl
  | cons v vs ih =>
    simp only [List.foldl_cons]
    rw [max_add_add_right v0 v 1]
    exact ih (max v0 v)

/-- With nonempty reactants all carrying the key, the loop computes exactly
the spec's candidate `1 + max(reactant generations)`. -/
theorem genLoop_candidate (gen_key : String) (rxn : ReactionExplicit)
    (h2 : ∀ r ∈ rxn.reactants, (metaLookup r.meta gen_key).isSome)
    (h3 : rxn.reactants ≠ []) :
    genLoop gen_key rxn.reactants none =
      some (some (candidateGen gen_key rxn.reactants)) := by
  obtain ⟨r0, rs', hrs⟩ := List.exists_cons_of_ne_nil h3
  have hr0 : (metaLookup r0.meta gen_key).isSome := by
    apply h2
    rw [hrs]
    exact List.mem_cons_self r0 rs'
  obtain ⟨v0, hv0⟩ := Option.isSome_iff_exists.mp hr0
  rw [hrs]
  simp only [genLoop, hv0, max_self]
  rw [genLoop_all_some gen_key rs' (v0 + 1)
    (fun r' hr' => h2 r' (by rw [hrs]; exact List.mem_cons_of_mem r0 hr'))]
  rw [foldl_max_add_one]
  simp only [candidateGen, List.map_cons, hv0, Option.getD_some]
  rw [add_comm]

/-- C3: if the evaluated molecule is one of the reaction's reactants, or any
reactant lacks the generation key (metadata absent included), the call
returns no update. -/
theorem generation_call_noop (gen_key : String) (data : DataPacket)
    (rxn : ReactionExplicit) (prev_value : Option Int)
    (h : data ∈ rxn.reactants ∨
      ∃ r ∈ rxn.reactants, metaLookup r.meta gen_key = none) :
    GenerationCalculator.call gen_key data rxn prev_value = none := by
  rcases h with h | h
  · simp [GenerationCalculator.call, h]
  · by_cases hmem : data ∈ rxn.reactants
    · simp [GenerationCalculator.call, hmem]
    · simp [GenerationCalculator.call, hmem, genLoop_missing gen_key _ none h]

/-- Witness for C3 at a concrete input: the one reactant has no metadata. -/
theorem generation_call_noop_witness :
    ((⟨1, none⟩ : DataPacket) ∈
        (ReactionExplicit.mk 0 [⟨2, none⟩] [⟨1, none⟩]).reactants ∨
      ∃ r ∈ (ReactionExplicit.mk 0 [⟨2, none⟩] [⟨1, none⟩]).reactants,
        metaLookup r.meta "generation" = none) ∧
    GenerationCalculator.call "generation" ⟨1, none⟩
      (ReactionExplicit.mk 0 [⟨2, none⟩] [⟨1, none⟩]) none = none :=
  ⟨by decide, generation_call_noop "generation" ⟨1, none⟩
    (ReactionExplicit.mk 0 [⟨2, none⟩] [⟨1, none⟩]) none (by decide)⟩

/-- C10: on a reaction with no reactants the call returns no update: the
loop leaves `cur_gen` as `None` and the `cur_gen is None` guard fires. -/
theorem generation_call_empty_reactants (gen_key : String) (data : DataPacket)
    (op : Nat) (products : List DataPacket) (prev_value : Option Int) :
    GenerationCalculator.call gen_key data
      (ReactionExplicit.mk op [] products) prev_value = none := by
  simp [GenerationCalculator.call, genLoop]

/-- C2 counterexample: one reactant at generation 0, so the candidate is
`1`; the evaluated molecule carries no stored value for the key, so by the
claim the candidate should be accepted — yet with `prev_value = 0` the call
returns no update (the `prev_value < cur_gen` guard fires first). -/
theorem generation_call_claim_counterexample :
    metaLookup (DataPacket.mk 1 none).meta "generation" = none ∧
    candidateGen "generation" [⟨2, some [("generation", 0)]⟩] = 1 ∧
    GenerationCalculator.call "generation" ⟨1, none⟩
      (ReactionExplicit.mk 0 [⟨2, some [("generation", 0)]⟩] [⟨1, none⟩])
      (some 0) = none := by
  refine ⟨rfl, by decide, ?_⟩
  decide

/-- C2 (amended): when the molecule is not a reactant, the reactant list is
nonempty, and every reactant carries the key, the call returns either the
candidate `1 + max(reactant generations)` or no update, and it returns the
candidate exactly when both (a) `prev_value` is absent or at least the
candidate, and (b) the stored value for the key is absent or strictly
exceeds the candidate. -/
theorem generation_call_candidate (gen_key : String) (data : DataPacket)
    (rxn : ReactionExplicit) (prev_value : Option Int)
    (h1 : data ∉ rxn.reactants)
    (h2 : ∀ r ∈ rxn.reactants, (metaLookup r.meta gen_key).isSome)
    (h3 : rxn.reactants ≠ []) :
    (GenerationCalculator.call gen_key data rxn prev_value =
        some (candidateGen gen_key rxn.reactants) ∨
      GenerationCalculator.call gen_key data rxn prev_value = none) ∧
    (GenerationCalculator.call gen_key data rxn prev_value =
        some (candidateGen gen_key rxn.reactants) ↔
      ((∀ p ∈ prev_value, candidateGen gen_key rxn.reactants ≤ p) ∧
       (∀ d ∈ metaLookup data.meta gen_key,
          candidateGen gen_key rxn.reactants < d))) := by
  have hloop := genLoop_candidate gen_key rxn h2 h3
  rcases prev_value with _ | p
  · rcases hst : metaLookup data.meta gen_key with _ | d
    · simp [GenerationCalculator.call, h1, hloop, hst]
    · by_cases hdc : d ≤ candidateGen gen_key rxn.reactants
      · simp only [GenerationCalculator.call, h1, if_false, hloop, hst]
        simp [hdc]
      · simp only [GenerationCalculator.call, h1, if_false, hloop, hst]
        simp [hdc]
        omega
  · by_cases hpc : p < candidateGen gen_key rxn.reactants
    · have : GenerationCalculator.call gen_key data rxn (some p) = none := by
        simp [GenerationCalculator.call, h1, hloop, hpc]
      rw [this]
      simp
      omega
    · rcases hst : metaLookup data.meta gen_key with _ | d
      · simp [GenerationCalculator.call, h1, hloop, hpc, hst]
        omega
      · by_cases hdc : d ≤ candidateGen gen_key rxn.reactants
        · simp [GenerationCalculator.call, h1, hloop, hpc, hst, hdc]
        · simp [GenerationCalculator.call, h1, hloop, hpc, hst, hdc]
          omega

/-- Witness for the amended C2 at a concrete input: reactants at generations
0 and 2, candidate 3, no prior or stored value, so 3 is accepted. -/
theorem generation_call_candidate_witness :
    ((⟨1, none⟩ : DataPacket) ∉
        (ReactionExplicit.mk 0
          [⟨2, some [("generation", 0)]⟩, ⟨3, some [("generation", 2)]⟩]
          [⟨1, none⟩]).reactants ∧
      (∀ r ∈ (ReactionExplicit.mk 0
          [⟨2, some [("generation", 0)]⟩, ⟨3, some [("generation", 2)]⟩]
          [⟨1, none⟩]).reactants, (metaLookup r.meta "generation").isSome) ∧
      (ReactionExplicit.mk 0
          [⟨2, some [("generation", 0)]⟩, ⟨3, some [("generation", 2)]⟩]
          [⟨1, none⟩]).reactants ≠ []) ∧
    (GenerationCalculator.call "generation" ⟨1, none⟩
        (ReactionExplicit.mk 0
          [⟨2, some [("generation", 0)]⟩, ⟨3, some [("generation", 2)]⟩]
          [⟨1, none⟩]) none =
      some (candidateGen "generation"
        [⟨2, some [("generation", 0)]⟩, ⟨3, some [("generation", 2)]⟩]) ↔
      ((∀ p ∈ (none : Option Int), candidateGen "generation"
          [⟨2, some [("generation", 0)]⟩, ⟨3, some [("generation", 2)]⟩] ≤ p) ∧
       (∀ d ∈ metaLookup (DataPacket.mk 1 none).meta "generation",
          candidateGen "generation"
            [⟨2, some [("generation", 0)]⟩, ⟨3, some [("generation", 2)]⟩] < d))) :=
  ⟨⟨by decide, by decide, by decide⟩,
    (generation_call_candidate "generation" ⟨1, none⟩
      (ReactionExplicit.mk 0
        [⟨2, some [("generation", 0)]⟩, ⟨3, some [("generation", 2)]⟩]
        [⟨1, none⟩]) none (by decide) (by decide) (by decide)).2⟩

/-- C5: for every structural object (and input flags), the minimal-cache
and full-cache molecule profiles yield identical uid and identical blob
contents. -/
theorem mol_cache_profiles_agree {μ : Type} (e : MolEngine μ) (molecule : μ)
    (sanitize : Bool) (neutralize : Bool) :
    (MolDatBasicV1.init e molecule sanitize neutralize).uid =
      (MolDatBasicV2.init e molecule sanitize neutralize).uid ∧
    (MolDatBasicV1.init e molecule sanitize neutralize).blob =
      MolDatBasicV2.blob e (MolDatBasicV2.init e molecule sanitize neutralize) :=
  ⟨rfl, rfl⟩

/-- C4: reaction uid is invariant under permutation of the reactant and
product collections, and reactions with different operators never share a
uid. -/
theorem rxn_uid_perm_invariant {ι : Type} [LinearOrder ι] (op op' : ι)
    (rs rs' ps ps' rs2 ps2 : List ι) (hr : rs.Perm rs') (hp : ps.Perm ps') :
    (RxnDatBasic.fromTriple op rs ps).uid =
      (RxnDatBasic.fromTriple op rs' ps').uid ∧
    (op ≠ op' →
      (RxnDatBasic.fromTriple op rs ps).uid ≠
        (RxnDatBasic.fromTriple op' rs2 ps2).uid) := by
  constructor
  · have h1 : rs.toFinset = rs'.toFinset := List.toFinset_eq_of_perm rs rs' hr
    have h2 : ps.toFinset = ps'.toFinset := List.toFinset_eq_of_perm ps ps' hp
    simp [RxnDatBasic.fromTriple, RxnDatBasic.uid, h1, h2]
  · intro hne heq
    exact hne (congrArg Prod.fst heq)

/-- Witness for C4 at concrete identifiers: `[1,2]` vs `[2,1]` as
reactants give the same uid; operators `0` vs `1` give different uids. -/
theorem rxn_uid_perm_invariant_witness :
    ((List.Perm [1, 2] [2, 1]) ∧ (List.Perm [3] ([3] : List ℕ))) ∧
    (RxnDatBasic.fromTriple (0 : ℕ) [1, 2] [3]).uid =
      (RxnDatBasic.fromTriple 0 [2, 1] [3]).uid ∧
    (RxnDatBasic.fromTriple (0 : ℕ) [1, 2] [3]).uid ≠
      (RxnDatBasic.fromTriple 1 [4] [5]).uid :=
  ⟨⟨List.Perm.swap 2 1 [], List.Perm.refl [3]⟩,
    (rxn_uid_perm_invariant 0 1 [1, 2] [2, 1] [3] [3] [4] [5]
      (List.Perm.swap 2 1 []) (List.Perm.refl [3])).1,
    (rxn_uid_perm_invariant 0 1 [1, 2] [2, 1] [3] [3] [4] [5]
      (List.Perm.swap 2 1 []) (List.Perm.refl [3])).2 (by decide)⟩

/-- A plain concrete engine instantiation at `Nat`, with total
kekulization and transformation. -/
def natEngine : OpEngine Nat Nat :=
  ⟨fun _ => 0, fun _ => "", fun m => Except.ok m, fun _ ms => Except.ok [ms]⟩

/-- C6 counterexample: constructing an operator unit from its own blob
does not reproduce the uid — the restricted unpickler rejects the blob's
`ChemicalReaction` class global, so construction raises `UnpicklingError`
and no unit at all is produced. -/
theorem op_blob_roundtrip_counterexample :
    OpDatBasic.init natEngine
        (OpInput.blob (OpDatBasic.blob ⟨0, true⟩)) false =
      Except.error (UnpicklingError.forbiddenGlobal
        "rdkit.Chem.rdChemReactions" "ChemicalReaction") := rfl

/-- C6 (amended): reconstructing a reaction unit from its own blob yields
a unit with an equal uid; reconstructing an operator unit from its own
blob instead always raises `UnpicklingError`, because the operator blob
carries the forbidden `ChemicalReaction` class global through the
restricted `loads`. -/
theorem blob_roundtrip_uid {ρ μ ι : Type} [LinearOrder ι] (e : OpEngine ρ μ)
    (op : OpDatBasic ρ) (kekulize_default : Bool) (r : RxnDatBasic ι) :
    (RxnDatBasic.fromBlob r.blob).uid = r.uid ∧
    OpDatBasic.init e (OpInput.blob op.blob) kekulize_default =
      Except.error (UnpicklingError.forbiddenGlobal
        "rdkit.Chem.rdChemReactions" "ChemicalReaction") := by
  refine ⟨?_, rfl⟩
  simp [RxnDatBasic.fromBlob, RxnDatBasic.blob, RxnDatBasic.uid,
    Finset.sort_toFinset]

/-- C8 counterexample: the kekulize flag is not preserved across
serialization — construction from an operator unit's own blob raises
`UnpicklingError` instead of restoring a unit carrying the flag. -/
theorem op_flag_not_restored_counterexample :
    OpDatBasic.init natEngine
        (OpInput.blob (OpDatBasic.blob ⟨1, true⟩)) false =
      Except.error (UnpicklingError.forbiddenGlobal
        "rdkit.Chem.rdChemReactions" "ChemicalReaction") := rfl

/-- C8 (amended): operator uid is `ReactionToSmarts` of the template only,
identical for both values of the kekulize flag under either successful
construction form; the flag, however, does not survive the blob round
trip, since constructing from a unit's own blob raises `UnpicklingError`
through the restricted `loads` and never restores any flag. -/
theorem op_uid_kekulize_independent {ρ μ : Type} (e : OpEngine ρ μ) (r : ρ)
    (s : String) (k1 k2 kd : Bool) (op : OpDatBasic ρ) :
    OpDatBasic.uid e op = e.reactionToSmarts op.rdkitrxn ∧
    (OpDatBasic.init e (OpInput.rxn r) k1).map (OpDatBasic.uid e) =
      (OpDatBasic.init e (OpInput.rxn r) k2).map (OpDatBasic.uid e) ∧
    (OpDatBasic.init e (OpInput.smarts s) k1).map (OpDatBasic.uid e) =
      (OpDatBasic.init e (OpInput.smarts s) k2).map (OpDatBasic.uid e) ∧
    OpDatBasic.init e (OpInput.blob op.blob) kd =
      Except.error (UnpicklingError.forbiddenGlobal
        "rdkit.Chem.rdChemReactions" "ChemicalReaction") :=
  ⟨rfl, rfl, rfl, rfl⟩

/-- A concrete engine whose kekulization always fails (an aromatic
structure that cannot be kekulized). -/
def kekFailEngine : OpEngine Nat Nat :=
  ⟨fun _ => 0, fun _ => "", fun _ => Except.error EngineError.kekulizeError,
    fun _ ms => Except.ok [ms]⟩

/-- A concrete engine whose transformation always raises
`AtomValenceException`. -/
def valenceFailEngine : OpEngine Nat Nat :=
  ⟨fun _ => 0, fun _ => "", fun m => Except.ok m,
    fun _ _ => Except.error EngineError.atomValence⟩

/-- C7 counterexample: with the kekulize flag set and a reactant whose
kekulization fails, the raw engine exception escapes `__call__` unwrapped
(the normalization step is outside the `try` block), so an exception other
than `ValueError` crosses the boundary. -/
theorem op_call_escape_counterexample :
    OpDatBasic.call kekFailEngine ⟨0, true⟩ [7] =
      Except.error (OpCallError.engine EngineError.kekulizeError) := rfl

/-- C7 (amended): when the pre-transformation kekulization step does not
fail (flag off, or all reactants kekulize), every structural error raised
by the transformation itself is re-raised as the single domain `ValueError`
carrying the operator and the reactant tuple, and no raw engine exception
escapes. -/
theorem op_call_wraps_transform_errors {ρ μ : Type} (e : OpEngine ρ μ)
    (op : OpDatBasic ρ) (reactants : List μ)
    (h : op.kekulize = false ∨
      ∃ mols, reactants.mapM e.kekulizeMol = Except.ok mols) :
    (∃ products, OpDatBasic.call e op reactants = Except.ok products) ∨
    OpDatBasic.call e op reactants =
      Except.error (OpCallError.valueError op reactants) := by
  have hkek : ∃ mols,
      (if op.kekulize then reactants.mapM e.kekulizeMol
       else Except.ok reactants) = Except.ok mols := by
    rcases h with h | ⟨mols, hm⟩
    · exact ⟨reactants, by rw [h]; rfl⟩
    · by_cases hk : op.kekulize = true
      · exact ⟨mols, by rw [if_pos hk]; exact hm⟩
      · exact ⟨reactants, by rw [if_neg hk]⟩
  obtain ⟨mols, hm⟩ := hkek
  simp only [OpDatBasic.call, hm]
  cases hr : e.runReactants op.rdkitrxn mols with
  | ok ps => exact Or.inl ⟨ps, rfl⟩
  | error err =>
    cases err with
    | atomValence => exact Or.inr rfl
    | kekulizeError => exact Or.inr rfl

/-- Witness for the amended C7: a transformation raising
`AtomValenceException` surfaces as the domain `ValueError` carrying the
operator and reactants. -/
theorem op_call_wraps_transform_errors_witness :
    ((OpDatBasic.mk 0 false).kekulize = false ∨
      ∃ mols, [5].mapM valenceFailEngine.kekulizeMol = Except.ok mols) ∧
    ((∃ products,
        OpDatBasic.call valenceFailEngine ⟨0, false⟩ [5] =
          Except.ok products) ∨
      OpDatBasic.call valenceFailEngine ⟨0, false⟩ [5] =
        Except.error (OpCallError.valueError ⟨0, false⟩ [5])) :=
  ⟨Or.inl rfl,
    op_call_wraps_transform_errors valenceFailEngine ⟨0, false⟩ [5]
      (Or.inl rfl)⟩

/-- C9 counterexample: supplying both a blob and a complete
(operator, reactants, products) triple does not raise — the blob branch
takes precedence and construction succeeds, contradicting "exactly one of
the two forms must be supplied". -/
theorem rxn_init_both_forms_counterexample :
    RxnDatBasic.init (some (0 : ℕ)) (some [1]) (some [2])
      (some (5, [6], [7])) =
      Except.ok (RxnDatBasic.fromBlob (5, [6], [7])) := rfl

/-- C9 (amended): construction succeeds iff a blob is supplied or the
triple is complete (with the blob taking precedence when both are
present); when neither form is supplied it raises
`TypeError("Insufficient arguments provided")`. -/
theorem rxn_init_insufficient_arguments {ι : Type} [DecidableEq ι]
    (operator : Option ι) (reactants : Option (List ι))
    (products : Option (List ι))
    (reaction : Option (ι × List ι × List ι)) :
    ((∃ r, RxnDatBasic.init operator reactants products reaction =
        Except.ok r) ↔
      (reaction.isSome ∨
        (operator.isSome ∧ reactants.isSome ∧ products.isSome))) ∧
    (¬ (reaction.isSome ∨
        (operator.isSome ∧ reactants.isSome ∧ products.isSome)) →
      RxnDatBasic.init operator reactants products reaction =
        Except.error "Insufficient arguments provided") := by
  constructor
  · cases reaction with
    | some b => simp [RxnDatBasic.init]
    | none =>
      cases operator <;> cases reactants <;> cases products <;>
        simp [RxnDatBasic.init]
  · intro h
    cases reaction with
    | some b => simp at h
    | none =>
      cases operator with
      | none => cases reactants <;> cases products <;> rfl
      | some o =>
        cases reactants with
        | none => cases products <;> rfl
        | some rs =>
          cases products with
          | none => rfl
          | some ps => simp at h

/-- Witness for the amended C9: with no arguments at all, construction
raises the insufficient-arguments `TypeError`. -/
theorem rxn_init_insufficient_arguments_witness :
    RxnDatBasic.init (none : Option ℕ) none none none =
      Except.error "Insufficient arguments provided" :=
  (rxn_init_insufficient_arguments none none none none).2 (by decide)

end PickaxeGeneric
